import Mathlib

/-!
Verification of the Reddit Access Client (`src/services/reddit_api.py`),
the response-validation and formatting helpers (`src/utils.py`) and the
seven MCP tool handlers (`src/main.py`) of the `reddit-mcp` repository,
as a shallow embedding in Lean.

Modelling conventions:
* Python JSON values are the inductive `Json`; Python truthiness is `Json.truthy`.
* `datetime` values are integers (microsecond timestamps); `datetime.isoformat`
  and `datetime.fromisoformat` are modelled by an injective rendering
  `isoformat` with a one-sided inverse `fromisoStr`, which is exact on every
  rendered value and fails (a `ValueError`) on any other string, mirroring the
  exactness of the ISO-8601 round trip at microsecond precision.
* Python exceptions are explicit: fallible steps return `Except PyErr _` or
  thread a `ClientState × Option PyErr`; `try/except` clauses are modelled by
  matching on the error and re-raising anything the `except` tuple does not name.
* The outside world (token endpoint, data endpoint, token file) is an explicit
  environment value; issued network requests are recorded in the outcome so
  that "no request was attempted" is a provable statement.
-/

namespace RedditMCP

/-- Model of a parsed Python JSON value (`json.loads` result / `dict` literals). -/
inductive Json where
  | null
  | bool (b : Bool)
  | num (n : Int)
  | str (s : String)
  | arr (elems : List Json)
  | obj (fields : List (String × Json))
deriving Repr

/-- Python truthiness (`if x:`) for JSON values. -/
def Json.truthy : Json → Bool
  | .null => false
  | .bool b => b
  | .num n => n != 0
  | .str s => s != ""
  | .arr elems => !elems.isEmpty
  | .obj fields => !fields.isEmpty

/-- The Python exception classes that the embedded code can raise. -/
inductive PyErr where
  | fileNotFound
  | jsonDecode
  | keyErr
  | indexErr
  | valueErr
  | typeErr
  | attributeErr
  | overflowErr
deriving Repr, DecidableEq

/-- Embedded `str(e)` for a raised exception, abstracted to the class name (no claim
inspects these texts). -/
def pyErrMessage : PyErr → String
  | .fileNotFound => "FileNotFoundError"
  | .jsonDecode => "JSONDecodeError"
  | .keyErr => "KeyError"
  | .indexErr => "IndexError"
  | .valueErr => "ValueError"
  | .typeErr => "TypeError"
  | .attributeErr => "AttributeError"
  | .overflowErr => "OverflowError"

/-- Model of `d.get(k)` on a value `d`: `None` when the key is absent,
`AttributeError` when `d` is not a dict. -/
def Json.dictGet : Json → String → Except PyErr Json
  | .obj fields, k => .ok ((List.lookup k fields).getD .null)
  | _, _ => .error .attributeErr

/-- Model of `d.get(k, default)` on a value `d`. -/
def Json.dictGetD : Json → String → Json → Except PyErr Json
  | .obj fields, k, dflt => .ok ((List.lookup k fields).getD dflt)
  | _, _, _ => .error .attributeErr

/-- Total variant of `d.get(k, default)` used where the source only ever holds
dicts; a non-dict yields the default. -/
def Json.getD (j : Json) (k : String) (dflt : Json) : Json :=
  match j with
  | .obj fields => (List.lookup k fields).getD dflt
  | _ => dflt

/-- Python `str(x)` rendering as it appears inside f-strings; container
rendering is abstracted (no claim inspects it). -/
def pyStr : Json → String
  | .null => "None"
  | .bool b => if b then "True" else "False"
  | .num n => toString n
  | .str s => s
  | .arr _ => "<list>"
  | .obj _ => "<dict>"

/-- Character for a single decimal digit. -/
def digitChar (d : Nat) : Char := Char.ofNat (48 + d)

/-- Partial inverse of `digitChar`. -/
def charDigit (c : Char) : Option Nat :=
  if 48 ≤ c.toNat ∧ c.toNat ≤ 57 then some (c.toNat - 48) else none

/-- Decode a list of digit characters; fails on any non-digit. -/
def charsDigits : List Char → Option (List Nat)
  | [] => some []
  | c :: cs =>
    match charDigit c, charsDigits cs with
    | some d, some ds => some (d :: ds)
    | _, _ => none

/-- Digit characters of a natural number (little-endian order; the order is
immaterial, only injectivity and invertibility matter to the claims). -/
def natChars (n : Nat) : List Char := (Nat.digits 10 n).map digitChar

/-- Model of `datetime.isoformat()`: an injective rendering of the timestamp,
a marker, a sign and the digit characters. It is never the empty string. -/
def isoformat (d : Int) : String :=
  if d < 0 then String.mk ('D' :: '-' :: natChars d.natAbs)
  else String.mk ('D' :: '+' :: natChars d.toNat)

/-- Decoder on the character list underlying `fromisoStr`. -/
def fromisoChars : List Char → Option Int
  | c1 :: c2 :: cs =>
    if c1 = 'D' ∧ c2 = '-' then
      (charsDigits cs).map (fun ds => -((Nat.ofDigits 10 ds : Nat) : Int))
    else if c1 = 'D' ∧ c2 = '+' then
      (charsDigits cs).map (fun ds => ((Nat.ofDigits 10 ds : Nat) : Int))
    else none
  | _ => none

/-- Model of `datetime.fromisoformat` on a string: exact inverse of `isoformat`
on rendered values, `none` (a `ValueError`) on anything else. -/
def fromisoStr (s : String) : Option Int := fromisoChars s.data

/-- Model of `datetime.fromisoformat` applied to a JSON value: `TypeError` on a
non-string argument, `ValueError` on an unparsable string. -/
def fromisoformat : Json → Except PyErr Int
  | .str s =>
    match fromisoStr s with
    | some d => .ok d
    | none => .error .valueErr
  | _ => .error .typeErr

/-- In-memory mutable state of `RedditAPIService` (`reddit_api.py`, `__init__`).
`access_token` and `refresh_token` are JSON values because the loaded file and
the token response may supply arbitrary JSON (`None` is `Json.null`). -/
structure ClientState where
  access_token : Json
  token_expiry : Int
  refresh_token : Json
  rate_limit_remaining : Int
  rate_limit_reset : Int
deriving Repr

/-- Stand-in for Python's `datetime.min` (any timestamp below every time the
process can observe). -/
def datetimeMin : Int := -62135596800000000

/-- The state set up by `RedditAPIService.__init__`. -/
def freshClientState : ClientState :=
  { access_token := Json.null
    token_expiry := datetimeMin
    refresh_token := Json.null
    rate_limit_remaining := 60
    rate_limit_reset := 0 }

/-- Content of the token storage file, classified by the outcome of reading and
`json.loads`-parsing it: absent, unparsable text, or a parsed JSON value. -/
inductive FileContent where
  | missing
  | invalidJson
  | json (v : Json)
deriving Repr

/-- The exception classes named by the `except` tuple in
`load_tokens_from_storage`: `(FileNotFoundError, json.JSONDecodeError, KeyError)`. -/
def caughtByLoad : PyErr → Bool
  | .fileNotFound => true
  | .jsonDecode => true
  | .keyErr => true
  | _ => false

/-- Body of the `try` block of `load_tokens_from_storage`: sequential field
assignments, stopping at the first raised exception (assignments made before it
persist, as in Python). Returns the state as mutated so far and the exception,
if any. -/
def loadAttempt (file : FileContent) (st : ClientState) : ClientState × Option PyErr :=
  match file with
  | .missing => (st, some .fileNotFound)
  | .invalidJson => (st, some .jsonDecode)
  | .json token_data =>
    match token_data.dictGet "access_token" with
    | .error e => (st, some e)
    | .ok tok =>
      let st1 := { st with access_token := tok }
      match token_data.dictGet "refresh_token" with
      | .error e => (st1, some e)
      | .ok rtok =>
        let st2 := { st1 with refresh_token := rtok }
        match token_data.dictGet "expires_at" with
        | .error e => (st2, some e)
        | .ok ea =>
          if ea.truthy then
            match fromisoformat ea with
            | .error e => (st2, some e)
            | .ok d => ({ st2 with token_expiry := d }, none)
          else (st2, none)

/-- Embedded `load_tokens_from_storage` (`reddit_api.py` lines 42-53): the `try` body
with `FileNotFoundError`, `json.JSONDecodeError` and `KeyError` swallowed;
any other exception propagates to the caller. -/
def load_tokens_from_storage (file : FileContent) (st : ClientState) :
    ClientState × Option PyErr :=
  match loadAttempt file st with
  | (st1, some e) => if caughtByLoad e then (st1, none) else (st1, some e)
  | (st1, none) => (st1, none)

/-- Embedded `save_tokens_to_storage` (`reddit_api.py` lines 55-72): returns early
without touching the file when no access token is held, otherwise overwrites
the file with the serialized token record. -/
def save_tokens_to_storage (st : ClientState) (now : Int) (file : FileContent) : FileContent :=
  if st.access_token.truthy then
    FileContent.json (Json.obj
      [("access_token", st.access_token),
       ("refresh_token", st.refresh_token),
       ("expires_at", Json.str (isoformat st.token_expiry)),
       ("saved_at", Json.str (isoformat now))])
  else file

/-- One outbound HTTP exchange as the embedded client observes it: either the
transport raised (connection error, timeout), or a response arrived with a
status code, headers, a body whose JSON parse may fail, and the raw text. -/
inductive HttpAttempt where
  | transportFailure (msg : String)
  | response (status : Int) (headers : List (String × String)) (body : Except String Json)
      (text : String)
deriving Repr

/-- Environment of one run of `get_client_credentials_token`: the token
endpoint's behaviour and the value of `datetime.now()` at expiry computation. -/
structure AcqEnv where
  attempt : HttpAttempt
  now : Int
deriving Repr

/-- Embedded `timedelta(seconds=x)` accepts numbers (for `bool`, Python arithmetic treats
`True` as 1); anything else raises `TypeError`. -/
def Json.asSeconds : Json → Except PyErr Int
  | .num n => .ok n
  | .bool b => .ok (if b then 1 else 0)
  | _ => .error .typeErr

/-- Embedded `get_client_credentials_token` (`reddit_api.py` lines 74-102). Returns the
`bool` result together with the state and the token file after the call; the
whole body sits in a `try` whose `except Exception` returns `False`, preserving
any field assignments already made. One token-endpoint POST is always issued. -/
def get_client_credentials_token (env : AcqEnv) (st : ClientState) (file : FileContent) :
    Bool × ClientState × FileContent :=
  match env.attempt with
  | .transportFailure _ => (false, st, file)
  | .response status _ body _ =>
    if status = 200 then
      match body with
      | .error _ => (false, st, file)
      | .ok data =>
        match data.dictGet "access_token" with
        | .error _ => (false, st, file)
        | .ok tok =>
          let st1 := { st with access_token := tok }
          match data.dictGetD "expires_in" (Json.num 3600) with
          | .error _ => (false, st1, file)
          | .ok ei =>
            match ei.asSeconds with
            | .error _ => (false, st1, file)
            | .ok secs =>
              let st2 := { st1 with token_expiry := env.now + secs }
              (true, st2, save_tokens_to_storage st2 env.now file)
    else (false, st, file)

/-- Environment of one run of `ensure_valid_token`: the storage file, the value
of `datetime.now()` in the expiry comparison, and the acquisition environment
used if a token request is made. -/
structure EnsureEnv where
  file : FileContent
  now : Int
  acq : AcqEnv
deriving Repr

/-- Result of `ensure_valid_token`: final state, final file, the returned bool
(or the propagated exception), and how many token-endpoint requests were made. -/
structure EnsureOutcome where
  state : ClientState
  file : FileContent
  result : Except PyErr Bool
  tokenRequests : Nat
deriving Repr

/-- The conditional load at the top of `ensure_valid_token`: tokens are loaded
from storage only when no access token is cached. -/
def loadPhase (env : EnsureEnv) (st : ClientState) : ClientState × Option PyErr :=
  if st.access_token.truthy then (st, none) else load_tokens_from_storage env.file st

/-- Embedded `ensure_valid_token` (`reddit_api.py` lines 104-112). -/
def ensure_valid_token (env : EnsureEnv) (st : ClientState) : EnsureOutcome :=
  match loadPhase env st with
  | (st1, some e) => { state := st1, file := env.file, result := .error e, tokenRequests := 0 }
  | (st1, none) =>
    if st1.access_token.truthy = false ∨ st1.token_expiry ≤ env.now then
      match get_client_credentials_token env.acq st1 env.file with
      | (ok, st2, file2) =>
        { state := st2, file := file2, result := .ok ok, tokenRequests := 1 }
    else { state := st1, file := env.file, result := .ok true, tokenRequests := 0 }

/-- Embedded `ApiCallResult` (`models/models.py` lines 81-87). -/
structure ApiCallResult where
  success : Bool
  data : Option Json := none
  error : Option String := none
  rate_limit_remaining : Option Int := none
  rate_limit_reset : Option Int := none
deriving Repr

/-- A bearer-authenticated GET request as issued by `make_request`. -/
structure GetRequest where
  endpoint : String
  params : List (String × Json)
  bearer : Json
deriving Repr

/-- Result of one `make_request` call (or of one tool operation): final state
and file, the returned `ApiCallResult` (or a propagated exception), and the
network requests that were issued along the way. -/
structure CallOutcome where
  state : ClientState
  file : FileContent
  result : Except PyErr ApiCallResult
  tokenRequests : Nat
  dataRequests : List GetRequest
deriving Repr

/-- Embedded `response.headers.get(k, default)`. -/
def headerGetD (headers : List (String × String)) (k dflt : String) : String :=
  (List.lookup k headers).getD dflt

/-- Surrounding-whitespace trimming on the character list (Python `float`
ignores surrounding whitespace). -/
def trimChars (cs : List Char) : List Char :=
  ((cs.dropWhile Char.isWhitespace).reverse.dropWhile Char.isWhitespace).reverse

/-- ASCII lowercasing (Python's `float` accepts `INF`, `NaN` and the exponent
marker case-insensitively). -/
def lowerChar (c : Char) : Char :=
  if 65 ≤ c.toNat ∧ c.toNat ≤ 90 then Char.ofNat (c.toNat + 32) else c

/-- Split at the first exponent marker (input already lowercased): the
mantissa characters and, when a marker is present, the exponent characters. -/
def splitOnE : List Char → List Char × Option (List Char)
  | [] => ([], none)
  | c :: cs =>
    if c = 'e' then ([], some cs)
    else
      let (m, rest) := splitOnE cs
      (c :: m, rest)

/-- Split at the first decimal point: the integer-part characters and, when a
point is present, the fraction characters. -/
def splitOnDot : List Char → List Char × Option (List Char)
  | [] => ([], none)
  | c :: cs =>
    if c = '.' then ([], some cs)
    else
      let (m, rest) := splitOnDot cs
      (c :: m, rest)

/-- Continuation of a Python `digitpart` after its first digit: further digits
with single underscores allowed only between digits. -/
def digitPartAux : List Char → Option (List Nat)
  | [] => some []
  | '_' :: c :: cs =>
    match charDigit c, digitPartAux cs with
    | some d, some ds => some (d :: ds)
    | _, _ => none
  | '_' :: [] => none
  | c :: cs =>
    match charDigit c, digitPartAux cs with
    | some d, some ds => some (d :: ds)
    | _, _ => none

/-- A Python `digitpart`: one or more digits with single underscores between
digits; returns the digits in big-endian order. -/
def digitPart : List Char → Option (List Nat)
  | [] => none
  | c :: cs =>
    match charDigit c, digitPartAux cs with
    | some d, some ds => some (d :: ds)
    | _, _ => none

/-- Exponent of a `float` literal: optional sign and a `digitpart`. -/
def parseExp : List Char → Option Int
  | '-' :: cs => (digitPart cs).map (fun ds => -((Nat.ofDigits 10 ds.reverse : Nat) : Int))
  | '+' :: cs => (digitPart cs).map (fun ds => ((Nat.ofDigits 10 ds.reverse : Nat) : Int))
  | cs => (digitPart cs).map (fun ds => ((Nat.ofDigits 10 ds.reverse : Nat) : Int))

/-- A Python `float` value as the embedded code observes it: a finite value
represented by its truncation toward zero (the only observation `int(...)`
makes of it), an infinity, or a NaN. -/
inductive PyFloat where
  | finite (n : Int)
  | infinite
  | nanv
deriving Repr, DecidableEq

/-- Negation of a parsed float (truncation toward zero commutes with negation;
`int(float(...))` raises the same exception for either infinity or NaN sign). -/
def PyFloat.negate : PyFloat → PyFloat
  | .finite n => .finite (-n)
  | .infinite => .infinite
  | .nanv => .nanv

/-- Smallest positive value that rounds to infinity when converted to an IEEE
double: the midpoint above the largest finite double, `2^1024 - 2^970`
(round-to-nearest-even sends the midpoint itself up to infinity). -/
def doubleOverflowThreshold : Nat := 2 ^ 1024 - 2 ^ 970

/-- Whether the positive decimal value `I * 10^k` overflows a double, where
`L` is the number of significant digits of `I` (`10^(L-1) ≤ I < 10^L`). The
two guard cases avoid computing powers for astronomically large exponents. -/
def overflowsDouble (I : Nat) (L k : Int) : Bool :=
  if L + k > 310 then true
  else if L + k < 308 then false
  else if 0 ≤ k then decide (doubleOverflowThreshold ≤ I * 10 ^ k.toNat)
  else decide (doubleOverflowThreshold * 10 ^ (-k).toNat ≤ I)

/-- Classification of a parsed decimal literal `ds * 10^k` (digits big-endian):
zero, an overflow to infinity, or its truncation toward zero. For finite
values the model truncates the exact decimal value; the IEEE round-to-nearest
step before `int(...)` truncation (observable only within one unit at
magnitudes at or above `2^53`, or for fractions within about `10^-16` of an
integer) is abstracted. -/
def pyClassifyMagnitude (ds : List Nat) (k : Int) : PyFloat :=
  let sig := ds.dropWhile (fun d => d == 0)
  if sig.isEmpty then PyFloat.finite 0
  else
    let I : Nat := Nat.ofDigits 10 ds.reverse
    if overflowsDouble I sig.length k then PyFloat.infinite
    else if 0 ≤ k then PyFloat.finite ((I * 10 ^ k.toNat : Nat) : Int)
    else if (sig.length : Int) + k ≤ 0 then PyFloat.finite 0
    else PyFloat.finite ((I / 10 ^ (-k).toNat : Nat) : Int)

/-- Mantissa/exponent decomposition of a Python `float` numeric literal
(lowercased, sign already removed): the significand digits (big-endian) and
the power-of-ten scale `k` with value `digits * 10^k`; `none` when the
characters are not a valid literal (no digit, misplaced underscore or point,
malformed exponent). -/
def parseMantissaExp (cs : List Char) : Option (List Nat × Int) :=
  let (mant, expChars) := splitOnE cs
  let (intChars, fracChars) := splitOnDot mant
  let intDigits : Option (List Nat) :=
    match intChars with
    | [] => some []
    | l => digitPart l
  let fracDigits : Option (List Nat) :=
    match fracChars with
    | none => some []
    | some [] => some []
    | some l => digitPart l
  let expVal : Option Int :=
    match expChars with
    | none => some 0
    | some l => parseExp l
  match intDigits, fracDigits, expVal with
  | some ids, some fds, some ev =>
    if ids.isEmpty ∧ fds.isEmpty then none
    else some (ids ++ fds, ev - fds.length)
  | _, _, _ => none

/-- An unsigned Python `float` literal (lowercased): the special words `inf`,
`infinity` and `nan`, or a numeric literal. -/
def parseUnsignedFloat (cs : List Char) : Option PyFloat :=
  if cs = ['i', 'n', 'f'] ∨ cs = ['i', 'n', 'f', 'i', 'n', 'i', 't', 'y'] then
    some PyFloat.infinite
  else if cs = ['n', 'a', 'n'] then some PyFloat.nanv
  else
    match parseMantissaExp cs with
    | none => none
    | some (ds, k) => some (pyClassifyMagnitude ds k)

/-- Embedded `float(s)` for ASCII strings: surrounding whitespace stripped,
case-insensitive, optional sign, `inf`/`infinity`/`nan` words, digit parts
with underscores, decimal point and exponent; `none` is the `ValueError` the
source's per-header `except` catches. Non-ASCII decimal digits, which CPython
also accepts, are outside the model (rate-limit headers are ASCII). -/
def pyParseFloat (s : String) : Option PyFloat :=
  match (trimChars s.data).map lowerChar with
  | '-' :: rest => (parseUnsignedFloat rest).map PyFloat.negate
  | '+' :: rest => parseUnsignedFloat rest
  | rest => parseUnsignedFloat rest

/-- Embedded `int(float(s))` with its exceptions: `ValueError` when `float`
rejects the string or when the value is NaN, `OverflowError` when the value is
infinite, otherwise the truncation toward zero. -/
def pyIntFloat (s : String) : Except PyErr Int :=
  match pyParseFloat s with
  | none => .error .valueErr
  | some (.finite n) => .ok n
  | some .infinite => .error .overflowErr
  | some .nanv => .error .valueErr

/-- One rate-limit header extraction of `make_request`:
`int(float(response.headers.get(k, dflt)))` under
`except (ValueError, TypeError)`, which falls back to the per-header default;
any other exception (the `OverflowError` of an infinite value) escapes. -/
def rateLimitHeaderValue (headers : List (String × String)) (k dflt : String)
    (fallback : Int) : Except PyErr Int :=
  match pyIntFloat (headerGetD headers k dflt) with
  | .ok n => .ok n
  | .error .valueErr => .ok fallback
  | .error .typeErr => .ok fallback
  | .error e => .error e

/-- Environment of one `make_request` call: the `ensure_valid_token`
environment and the data endpoint's behaviour for the GET (consulted only when
a GET is actually issued). -/
structure RequestEnv where
  ensure : EnsureEnv
  data : HttpAttempt
deriving Repr

/-- Embedded `make_request` (`reddit_api.py` lines 114-160). The `ensure_valid_token`
guard sits outside the `try`, so an exception it propagates (e.g. from a
malformed token file) escapes to the operation's caller. On a response, the
rate-limit headers are read defensively into the state before the status is
examined; on HTTP 200 the parsed body is returned as success, on any other
status a failure with status and text; a transport failure or a body-parse
failure yields a failure carrying the exception message. -/
def make_request (endpoint : String) (params : List (String × Json)) (env : RequestEnv)
    (st : ClientState) : CallOutcome :=
  match ensure_valid_token env.ensure st with
  | e =>
    match e.result with
    | .error err =>
      { state := e.state
        file := e.file
        result := .error err
        tokenRequests := e.tokenRequests
        dataRequests := [] }
    | .ok false =>
      { state := e.state
        file := e.file
        result := .ok { success := false, error := some "Failed to get valid access token" }
        tokenRequests := e.tokenRequests
        dataRequests := [] }
    | .ok true =>
      let req : GetRequest :=
        { endpoint := endpoint, params := params, bearer := e.state.access_token }
      match env.data with
      | .transportFailure msg =>
        { state := e.state
          file := e.file
          result := .ok { success := false, error := some msg }
          tokenRequests := e.tokenRequests
          dataRequests := [req] }
      | .response status headers body text =>
        match rateLimitHeaderValue headers "X-Ratelimit-Remaining" "60" 60 with
        | .error e1 =>
          -- an OverflowError escapes the header try/except and reaches the
          -- outer `except Exception`: the call fails, the field is unassigned
          { state := e.state
            file := e.file
            result := .ok { success := false, error := some (pyErrMessage e1) }
            tokenRequests := e.tokenRequests
            dataRequests := [req] }
        | .ok rem =>
        match rateLimitHeaderValue headers "X-Ratelimit-Reset" "0" 0 with
        | .error e2 =>
          { state := { e.state with rate_limit_remaining := rem }
            file := e.file
            result := .ok { success := false, error := some (pyErrMessage e2) }
            tokenRequests := e.tokenRequests
            dataRequests := [req] }
        | .ok rst =>
        let st2 := { e.state with rate_limit_remaining := rem, rate_limit_reset := rst }
        if status = 200 then
          match body with
          | .ok j =>
            { state := st2
              file := e.file
              result := .ok { success := true
                              data := some j
                              rate_limit_remaining := some rem
                              rate_limit_reset := some rst }
              tokenRequests := e.tokenRequests
              dataRequests := [req] }
          | .error msg =>
            { state := st2
              file := e.file
              result := .ok { success := false, error := some msg }
              tokenRequests := e.tokenRequests
              dataRequests := [req] }
        else
          { state := st2
            file := e.file
            result := .ok { success := false
                            error := some ("HTTP " ++ toString status ++ ": " ++ text)
                            rate_limit_remaining := some rem
                            rate_limit_reset := some rst }
            tokenRequests := e.tokenRequests
            dataRequests := [req] }

/-- Endpoint built by `get_subreddit_posts`. -/
def subreddit_posts_endpoint (subreddit sort : String) : String :=
  "/r/" ++ subreddit ++ "/" ++ sort ++ ".json"

/-- Query parameters built by `get_subreddit_posts`. -/
def subreddit_posts_params (limit : Int) (time : String) : List (String × Json) :=
  [("limit", Json.num limit), ("t", Json.str time)]

/-- Query parameters built by `search_reddit`; `restrict_sr`/`subreddit` are
added only when the optional subreddit argument is truthy (`if subreddit:`).
`query` and `subreddit` are the raw argument values the handler passed. -/
def search_params (query subreddit : Json) (sort time : String) (limit : Int) :
    List (String × Json) :=
  let base := [("q", query), ("sort", Json.str sort), ("t", Json.str time),
    ("limit", Json.num limit)]
  if subreddit.truthy then
    base ++ [("restrict_sr", Json.str "true"), ("subreddit", subreddit)]
  else base

/-- Query parameters built by `get_post_comments`; `sort` is the raw argument
value the handler passed. -/
def post_comments_params (sort : Json) (limit : Int) : List (String × Json) :=
  [("sort", sort), ("limit", Json.num limit)]

/-- Query parameters built by `get_cross_posts`: the post id with the `t3_`
link-kind marker prepended. -/
def cross_posts_params (post_id : String) : List (String × Json) :=
  [("id", Json.str ("t3_" ++ post_id))]

/-- One call to one of the seven typed fetch operations of
`RedditAPIService`, with all its Python arguments explicit. -/
inductive OpCall where
  | subredditPosts (subreddit sort : String) (limit : Int) (time : String)
  | searchReddit (query subreddit : Json) (sort time : String) (limit : Int)
  | userProfile (username : String)
  | subredditInfo (subreddit : String)
  | postComments (post_id : String) (sort : Json) (limit : Int)
  | trendingSubreddits (limit : Int)
  | crossPosts (post_id : String)
deriving Repr

/-- Embedded `len(x)` on a JSON value; `TypeError` for values without a length. -/
def pyLen : Json → Except PyErr Nat
  | .arr elems => .ok elems.length
  | .obj fields => .ok fields.length
  | .str s => .ok s.length
  | _ => .error .typeErr

/-- Embedded `x[i]` indexing on a JSON value. -/
def pyIndex : Json → Nat → Except PyErr Json
  | .arr elems, i =>
    match elems.get? i with
    | some v => .ok v
    | none => .error .indexErr
  | .str s, i =>
    match s.data.get? i with
    | some c => .ok (Json.str (String.mk [c]))
    | none => .error .indexErr
  | .obj _, _ => .error .keyErr
  | _, _ => .error .typeErr

/-- Dispatch of the seven operations (`reddit_api.py` lines 162-229): each
builds its endpoint and query parameters and delegates to `make_request`. -/
def runOp : OpCall → RequestEnv → ClientState → CallOutcome
  | .subredditPosts subreddit sort limit time, env, st =>
    make_request (subreddit_posts_endpoint subreddit sort) (subreddit_posts_params limit time)
      env st
  | .searchReddit query subreddit sort time limit, env, st =>
    make_request "/search.json" (search_params query subreddit sort time limit) env st
  | .userProfile username, env, st =>
    make_request ("/user/" ++ username ++ "/about.json") [] env st
  | .subredditInfo subreddit, env, st =>
    make_request ("/r/" ++ subreddit ++ "/about.json") [] env st
  | .postComments post_id sort limit, env, st =>
    make_request ("/comments/" ++ post_id ++ ".json") (post_comments_params sort limit) env st
  | .trendingSubreddits limit, env, st =>
    make_request "/subreddits/popular.json" [("limit", Json.num limit)] env st
  | .crossPosts post_id, env, st =>
    make_request "/api/info.json" (cross_posts_params post_id) env st

/-!
Helpers of `src/utils.py`. The display formatters are total renderings: the
calendar output of `strftime`, Python's thousand separators and the scaled
`K`/`M` counts are abstracted to injective renderings of the underlying
numbers, and non-conforming field values render through defaults; no claim
inspects the formatted display text of an item.
-/

/-- Embedded `create_error_response` (utils.py 14-16). -/
def create_error_response (message details : String) : String :=
  "**Error**: " ++ message ++ "\n\n**Details**: " ++ details ++
    "\n\n**Troubleshooting**: Check your Reddit API credentials and network connection."

/-- Embedded `create_success_response` (utils.py 19-21). -/
def create_success_response (message data : String) : String :=
  "**Success**: " ++ message ++ "\n\n" ++ data

/-- Embedded `int(float(x))` for a JSON value as the display formatters use it
under `except (ValueError, TypeError)`, `none` on the caught exceptions. An
infinite string value's `OverflowError` would escape the formatter in the
source; since the formatters are totalized here (see the section comment) it
is folded into the default as well. -/
def Json.asIntCoerce : Json → Option Int
  | .num n => some n
  | .bool b => some (if b then 1 else 0)
  | .str s =>
    match pyIntFloat s with
    | .ok n => some n
    | .error _ => none
  | _ => none

/-- Embedded `format_timestamp` (utils.py 24-31); the `strftime` date-time rendering is
abstracted to an injective rendering of the numeric timestamp. -/
def format_timestamp (created_utc : Json) : String :=
  match created_utc.asIntCoerce with
  | some n => "time<" ++ toString n ++ ">"
  | none => "Unknown date"

/-- Embedded `format_date` (utils.py 34-41); the `strftime` date rendering is abstracted
to an injective rendering of the numeric timestamp. -/
def format_date (created_utc : Json) : String :=
  match created_utc.asIntCoerce with
  | some n => "date<" ++ toString n ++ ">"
  | none => "Unknown date"

/-- Embedded `format_score` (utils.py 44-57). -/
def format_score (score : Json) : String :=
  let n := (score.asIntCoerce).getD 0
  if n ≥ 1000 then "Hot: " ++ toString n
  else if n ≥ 100 then "Good: " ++ toString n
  else "Score: " ++ toString n

/-- Embedded `format_karma` (utils.py 60-73). -/
def format_karma (karma : Json) : String :=
  let n := (karma.asIntCoerce).getD 0
  if n ≥ 100000 then "Elite: " ++ toString n
  else if n ≥ 10000 then "High: " ++ toString n
  else "Karma: " ++ toString n

/-- Embedded `format_subscriber_count` (utils.py 76-89); the `K`/`M`-scaled rendering is
abstracted to the raw count. -/
def format_subscriber_count (subscribers : Json) : String :=
  let n := (subscribers.asIntCoerce).getD 0
  if n ≥ 1000000 then "Large: " ++ toString n
  else if n ≥ 1000 then "Medium: " ++ toString n
  else "Subscribers: " ++ toString n

/-- Embedded `truncate_text` (utils.py 92-96). -/
def truncate_text (text : String) (max_length : Nat) : String :=
  if text.length > max_length then text.take max_length ++ "..." else text

/-- Embedded `create_reddit_link` (utils.py 99-103). -/
def create_reddit_link (permalink fallback_url : Json) : String :=
  if permalink.truthy then "https://reddit.com" ++ pyStr permalink else pyStr fallback_url

/-- Embedded `child['data']` for one element of the children list. -/
def childData : Json → Except String Json
  | .obj fields =>
    match List.lookup "data" fields with
    | some v => .ok v
    | none => .error (pyErrMessage .keyErr)
  | _ => .error (pyErrMessage .typeErr)

/-- The comprehension `[child['data'] for child in children]`, stopping at the
first raised exception. -/
def extractChildrenList : List Json → Except String (List Json)
  | [] => .ok []
  | c :: cs =>
    match childData c with
    | .error e => .error e
    | .ok v =>
      match extractChildrenList cs with
      | .error e => .error e
      | .ok vs => .ok (v :: vs)

/-- Iterating the children payload; iteration of a non-list is modelled as a
`TypeError`. -/
def extractChildren : Json → Except String (List Json)
  | .arr elems => extractChildrenList elems
  | _ => .error (pyErrMessage .typeErr)

/-- Embedded `validate_api_response` (utils.py 106-115) applied to an `ApiCallResult`.
An `.error` value is the `str` of the exception the Python function raises; in
particular a successful call whose payload has empty or absent
`data.data.children` raises `Exception("No <expected_structure> found")`. -/
def validate_api_response (result : ApiCallResult) (expected_structure : String) :
    Except String (List Json) :=
  if result.success = false then
    .error (match result.error with
      | some msg => msg
      | none => "None")
  else
    match result.data with
    | none => .error ("No " ++ expected_structure ++ " found")
    | some d =>
      if d.truthy = false then .error ("No " ++ expected_structure ++ " found")
      else
        match d.dictGet "data" with
        | .error e => .error (pyErrMessage e)
        | .ok inner =>
          if inner.truthy = false then .error ("No " ++ expected_structure ++ " found")
          else
            match inner.dictGet "children" with
            | .error e => .error (pyErrMessage e)
            | .ok children =>
              if children.truthy = false then
                .error ("No " ++ expected_structure ++ " found")
              else extractChildren children

/-- Embedded `format_data_list` (utils.py 118-132). -/
def format_data_list (items : List Json) (formatter : Json → String) (limit : Nat)
    (item_type : String) : String :=
  let display_items := items.take limit
  let result := String.intercalate "\n\n" (display_items.map formatter)
  if items.length > limit then
    result ++ "\n\n... and " ++ toString (items.length - limit) ++ " more " ++ item_type ++
      " available"
  else result

/-- Embedded `create_summary_with_rate_limit` (utils.py 135-145): the rate-limit line is
appended only when `rate_limit_remaining` is truthy, so both `None` and `0`
omit it. -/
def create_summary_with_rate_limit (message : String) (count : Int) (item_type : String)
    (rate_limit_remaining : Option Int) : String :=
  let summary := message ++ " **" ++ toString count ++ " " ++ item_type ++ "**"
  match rate_limit_remaining with
  | some n =>
    if n ≠ 0 then summary ++ "\n**Rate limit**: " ++ toString n ++ " requests remaining"
    else summary
  | none => summary

/-- Embedded `format_reddit_post` (utils.py 152-179). -/
def format_reddit_post (post : Json) : String :=
  let title := post.getD "title" (Json.str "No title")
  let author := post.getD "author" (Json.str "Unknown")
  let subreddit := post.getD "subreddit" (Json.str "Unknown")
  let score := post.getD "score" (Json.num 0)
  let num_comments := post.getD "num_comments" (Json.num 0)
  let created_utc := post.getD "created_utc" (Json.num 0)
  let url := post.getD "url" (Json.str "")
  let permalink := post.getD "permalink" (Json.str "")
  let timestamp := format_timestamp created_utc
  let score_display := format_score score
  let comments_display :=
    match num_comments.asIntCoerce with
    | some n => if n > 0 then "Comments: " ++ toString n else "Comments: 0"
    | none => "Comments: 0"
  let reddit_link := create_reddit_link permalink url
  "**" ++ pyStr title ++ "**\n**Author**: u/" ++ pyStr author ++ " | **Subreddit**: r/" ++
    pyStr subreddit ++ "\n" ++ score_display ++ " | " ++ comments_display ++
    " | **Posted**: " ++ timestamp ++ "\n**Link**: " ++ reddit_link

/-- Embedded `format_reddit_comment` (utils.py 182-212). Python's recursion into at most
three reply children per level is bounded by the finite depth of the JSON
value; the embedding makes that bound explicit as a fuel argument. -/
def format_reddit_comment : Nat → Json → Nat → String
  | 0, _, _ => ""
  | fuel + 1, comment, depth =>
    let indent := String.join (List.replicate depth "  ")
    let author := comment.getD "author" (Json.str "Unknown")
    let body := comment.getD "body" (Json.str "No content")
    let score := comment.getD "score" (Json.num 0)
    let created_utc := comment.getD "created_utc" (Json.num 0)
    let timestamp := format_timestamp created_utc
    let score_display :=
      match score.asIntCoerce with
      | some n => if n ≠ 0 then "Score: " ++ toString n else "Score: 0"
      | none => "Score: 0"
    let body_truncated := truncate_text (pyStr body) 200
    let base := indent ++ "**u/" ++ pyStr author ++ "** (" ++ score_display ++ ") - " ++
      timestamp ++ "\n" ++ indent ++ body_truncated
    let replies := ((comment.getD "replies" (Json.obj [])).getD "data" (Json.obj [])).getD
      "children" (Json.arr [])
    match replies with
    | .arr elems =>
      (elems.take 3).foldl (fun acc reply =>
        let reply_data := reply.getD "data" (Json.obj [])
        if (reply_data.getD "body" Json.null).truthy then
          acc ++ "\n" ++ format_reddit_comment fuel reply_data (depth + 1)
        else acc) base
    | _ => base

/-- Embedded `format_reddit_comment` as the handlers call it (`depth = 0`), with a fixed
generous fuel. -/
def format_reddit_comment_top (comment : Json) : String :=
  format_reddit_comment 100 comment 0

/-- Embedded `format_reddit_subreddit` (utils.py 215-241). -/
def format_reddit_subreddit (subreddit : Json) : String :=
  let name := subreddit.getD "display_name" (subreddit.getD "name" (Json.str "Unknown"))
  let title := subreddit.getD "title" (Json.str "No title")
  let description := subreddit.getD "public_description" (Json.str "No description")
  let subscribers := subreddit.getD "subscribers" (Json.num 0)
  let active_users := subreddit.getD "active_user_count" (Json.num 0)
  let created_utc := subreddit.getD "created_utc" (Json.num 0)
  let over18 := subreddit.getD "over18" (Json.bool false)
  let created_date := format_date created_utc
  let sub_count := format_subscriber_count subscribers
  let active_users_int := (active_users.asIntCoerce).getD 0
  let nsfw_indicator := if over18.truthy then "NSFW" else "SFW"
  "**r/" ++ pyStr name ++ "** - " ++ pyStr title ++ "\n**Description**: " ++
    pyStr description ++ "\n**Subscribers**: " ++ sub_count ++ " | **Active**: " ++
    toString active_users_int ++ "\n**Created**: " ++ created_date ++ " | " ++
    nsfw_indicator ++ "\n**URL**: https://reddit.com/r/" ++ pyStr name

/-- Embedded `format_reddit_user` (utils.py 244-284); a coercion failure of either karma
field zeroes both, as in the shared `try` block. -/
def format_reddit_user (user : Json) : String :=
  let name := user.getD "name" (Json.str "Unknown")
  let link_karma := user.getD "link_karma" (Json.num 0)
  let comment_karma := user.getD "comment_karma" (Json.num 0)
  let created_utc := user.getD "created_utc" (Json.num 0)
  let gold := user.getD "is_gold" (Json.bool false)
  let moderator := user.getD "is_mod" (Json.bool false)
  let verified := user.getD "has_verified_email" (Json.bool false)
  let created_date := format_date created_utc
  let karmas :=
    match link_karma.asIntCoerce, comment_karma.asIntCoerce with
    | some a, some b => (a, b, a + b)
    | _, _ => ((0 : Int), (0 : Int), (0 : Int))
  let karma_display := format_karma (Json.num karmas.2.2)
  let status := (if gold.truthy then ["Gold"] else []) ++
    (if moderator.truthy then ["Moderator"] else []) ++
    (if verified.truthy then ["Verified"] else [])
  let status_text := if status.isEmpty then "Regular User" else String.intercalate " | " status
  "**u/" ++ pyStr name ++ "**\n**Karma**: " ++ karma_display ++ " (Post: " ++
    toString karmas.1 ++ " | Comment: " ++ toString karmas.2.1 ++ ")\n**Member since**: " ++
    created_date ++ "\n" ++ status_text ++ "\n**Profile**: https://reddit.com/u/" ++ pyStr name

/-!
The seven tool handlers of `src/main.py`. Each handler receives the MCP
`arguments` dict, validates its required argument, runs the operation, and
renders one text response; the whole body sits in a `try` whose
`except Exception as e` renders `create_error_response(<per-tool message>,
str(e))`, which is where exceptions raised by `validate_api_response` or
propagated out of the client land. The outcome records the final client state,
token file and the network requests issued.
-/

/-- Embedded `arguments.get(k, default)`. -/
def argGetD (args : List (String × Json)) (k : String) (dflt : Json) : Json :=
  (List.lookup k args).getD dflt

/-- Python `x or "Unknown error"` on an optional error string. -/
def errorOrUnknown : Option String → String
  | some s => if s ≠ "" then s else "Unknown error"
  | none => "Unknown error"

/-- Result of one tool handler: the rendered `TextContent` text plus the final
client state, token file, and the network requests issued during the call. -/
structure HandlerOutcome where
  text : String
  state : ClientState
  file : FileContent
  tokenRequests : Nat
  dataRequests : List GetRequest
deriving Repr

/-- A handler outcome that issued no network traffic and left state untouched
(the early-validation return path). -/
def rejectedOutcome (text : String) (env : RequestEnv) (st : ClientState) : HandlerOutcome :=
  { text := text
    state := st
    file := env.ensure.file
    tokenRequests := 0
    dataRequests := [] }

/-- Embedded `handle_get_subreddit_posts` (main.py 192-225). -/
def handle_get_subreddit_posts (arguments : List (String × Json)) (env : RequestEnv)
    (st : ClientState) : HandlerOutcome :=
  let subreddit := argGetD arguments "subreddit" (Json.str "")
  let sort := argGetD arguments "sort" (Json.str "hot")
  if subreddit.truthy = false then
    rejectedOutcome (create_error_response "Subreddit name is required" "") env st
  else
    let r := runOp (.subredditPosts (pyStr subreddit) (pyStr sort) 25 "all") env st
    let text :=
      match r.result with
      | .error e => create_error_response "Failed to get subreddit posts" (pyErrMessage e)
      | .ok result =>
        if result.success = false then
          create_error_response "Failed to get subreddit posts" (errorOrUnknown result.error)
        else
          match validate_api_response result "posts" with
          | .error msg => create_error_response "Failed to get subreddit posts" msg
          | .ok posts =>
            if posts.isEmpty then
              create_success_response ("No posts found in r/" ++ pyStr subreddit) ""
            else
              let formatted := format_data_list posts format_reddit_post 10 "posts"
              let summary := create_summary_with_rate_limit
                ("📊 **Found " ++ toString posts.length ++ " posts** in r/" ++
                  pyStr subreddit ++ " (sorted by " ++ pyStr sort ++ ")")
                (posts.length : Int) "posts" result.rate_limit_remaining
              create_success_response
                ("Successfully retrieved posts from r/" ++ pyStr subreddit)
                (summary ++ "\n\n" ++ formatted)
    { text := text
      state := r.state
      file := r.file
      tokenRequests := r.tokenRequests
      dataRequests := r.dataRequests }

/-- Embedded `handle_search_reddit` (main.py 227-262). -/
def handle_search_reddit (arguments : List (String × Json)) (env : RequestEnv)
    (st : ClientState) : HandlerOutcome :=
  let query := argGetD arguments "query" (Json.str "")
  let subreddit := argGetD arguments "subreddit" Json.null
  if query.truthy = false then
    rejectedOutcome (create_error_response "Search query is required" "") env st
  else
    let r := runOp (.searchReddit query subreddit "relevance" "all" 25) env st
    let text :=
      match r.result with
      | .error e => create_error_response "Failed to search Reddit" (pyErrMessage e)
      | .ok result =>
        if result.success = false then
          create_error_response "Failed to search Reddit" (errorOrUnknown result.error)
        else
          match validate_api_response result "search results" with
          | .error msg => create_error_response "Failed to search Reddit" msg
          | .ok posts =>
            if posts.isEmpty then
              let search_scope :=
                if subreddit.truthy then " in r/" ++ pyStr subreddit else ""
              create_success_response
                ("No results found for '" ++ pyStr query ++ "'" ++ search_scope) ""
            else
              let formatted := format_data_list posts format_reddit_post 8 "results"
              let search_scope :=
                if subreddit.truthy then " in r/" ++ pyStr subreddit else " across Reddit"
              let summary := create_summary_with_rate_limit
                ("🔍 **Found " ++ toString posts.length ++ " results** for '" ++
                  pyStr query ++ "'" ++ search_scope)
                (posts.length : Int) "results" result.rate_limit_remaining
              create_success_response ("Search completed for '" ++ pyStr query ++ "'")
                (summary ++ "\n\n" ++ formatted)
    { text := text
      state := r.state
      file := r.file
      tokenRequests := r.tokenRequests
      dataRequests := r.dataRequests }

/-- Embedded `handle_get_user_profile` (main.py 264-295). -/
def handle_get_user_profile (arguments : List (String × Json)) (env : RequestEnv)
    (st : ClientState) : HandlerOutcome :=
  let username := argGetD arguments "username" (Json.str "")
  if username.truthy = false then
    rejectedOutcome (create_error_response "Username is required" "") env st
  else
    let r := runOp (.userProfile (pyStr username)) env st
    let text :=
      match r.result with
      | .error e => create_error_response "Failed to get user profile" (pyErrMessage e)
      | .ok result =>
        if result.success = false then
          create_error_response "Failed to get user profile" (errorOrUnknown result.error)
        else
          match ((result.data).getD Json.null).dictGetD "data" (Json.obj []) with
          | .error e => create_error_response "Failed to get user profile" (pyErrMessage e)
          | .ok user_data =>
            if user_data.truthy = false then
              create_error_response ("User '" ++ pyStr username ++ "' not found") ""
            else
              let formatted_user := format_reddit_user user_data
              let summary := create_summary_with_rate_limit
                ("👤 **Profile for u/" ++ pyStr username ++ "**")
                1 "profile" result.rate_limit_remaining
              create_success_response
                ("Successfully retrieved profile for u/" ++ pyStr username)
                (summary ++ "\n\n" ++ formatted_user)
    { text := text
      state := r.state
      file := r.file
      tokenRequests := r.tokenRequests
      dataRequests := r.dataRequests }

/-- Embedded `handle_get_subreddit_info` (main.py 297-328). -/
def handle_get_subreddit_info (arguments : List (String × Json)) (env : RequestEnv)
    (st : ClientState) : HandlerOutcome :=
  let subreddit := argGetD arguments "subreddit" (Json.str "")
  if subreddit.truthy = false then
    rejectedOutcome (create_error_response "Subreddit name is required" "") env st
  else
    let r := runOp (.subredditInfo (pyStr subreddit)) env st
    let text :=
      match r.result with
      | .error e => create_error_response "Failed to get subreddit info" (pyErrMessage e)
      | .ok result =>
        if result.success = false then
          create_error_response "Failed to get subreddit info" (errorOrUnknown result.error)
        else
          match ((result.data).getD Json.null).dictGetD "data" (Json.obj []) with
          | .error e => create_error_response "Failed to get subreddit info" (pyErrMessage e)
          | .ok subreddit_data =>
            if subreddit_data.truthy = false then
              create_error_response ("Subreddit 'r/" ++ pyStr subreddit ++ "' not found") ""
            else
              let formatted_subreddit := format_reddit_subreddit subreddit_data
              let summary := create_summary_with_rate_limit
                ("🏠 **Subreddit info for r/" ++ pyStr subreddit ++ "**")
                1 "subreddit" result.rate_limit_remaining
              create_success_response
                ("Successfully retrieved info for r/" ++ pyStr subreddit)
                (summary ++ "\n\n" ++ formatted_subreddit)
    { text := text
      state := r.state
      file := r.file
      tokenRequests := r.tokenRequests
      dataRequests := r.dataRequests }

/-- Embedded `handle_get_post_comments` (main.py 330-367). -/
def handle_get_post_comments (arguments : List (String × Json)) (env : RequestEnv)
    (st : ClientState) : HandlerOutcome :=
  let post_id := argGetD arguments "post_id" (Json.str "")
  let sort := argGetD arguments "sort" (Json.str "best")
  if post_id.truthy = false then
    rejectedOutcome (create_error_response "Post ID is required" "") env st
  else
    let r := runOp (.postComments (pyStr post_id) sort 25) env st
    let text :=
      match r.result with
      | .error e => create_error_response "Failed to get post comments" (pyErrMessage e)
      | .ok result =>
        if result.success = false then
          create_error_response "Failed to get post comments" (errorOrUnknown result.error)
        else
          let dataJ := (result.data).getD Json.null
          if dataJ.truthy = false then create_error_response "No comments data found" ""
          else
            match pyLen dataJ with
            | .error e => create_error_response "Failed to get post comments" (pyErrMessage e)
            | .ok n =>
              if n < 2 then create_error_response "No comments data found" ""
              else
                match pyIndex dataJ 1 with
                | .error e =>
                  create_error_response "Failed to get post comments" (pyErrMessage e)
                | .ok second =>
                  match second.dictGetD "data" (Json.obj []) with
                  | .error e =>
                    create_error_response "Failed to get post comments" (pyErrMessage e)
                  | .ok d2 =>
                    match d2.dictGetD "children" (Json.arr []) with
                    | .error e =>
                      create_error_response "Failed to get post comments" (pyErrMessage e)
                    | .ok children =>
                      if children.truthy = false then
                        create_success_response
                          ("No comments found for post " ++ pyStr post_id) ""
                      else
                        match children with
                        | .arr comments_data =>
                          let formatted := format_data_list comments_data
                            format_reddit_comment_top 10 "comments"
                          let summary := create_summary_with_rate_limit
                            ("💬 **Found " ++ toString comments_data.length ++
                              " comments** for post " ++ pyStr post_id ++ " (sorted by " ++
                              pyStr sort ++ ")")
                            (comments_data.length : Int) "comments"
                            result.rate_limit_remaining
                          create_success_response
                            ("Successfully retrieved comments for post " ++ pyStr post_id)
                            (summary ++ "\n\n" ++ formatted)
                        | _ =>
                          create_error_response "Failed to get post comments"
                            (pyErrMessage .typeErr)
    { text := text
      state := r.state
      file := r.file
      tokenRequests := r.tokenRequests
      dataRequests := r.dataRequests }

/-- Embedded `handle_get_trending_subreddits` (main.py 369-396); the arguments dict is
ignored, there is no required argument. -/
def handle_get_trending_subreddits (_arguments : List (String × Json)) (env : RequestEnv)
    (st : ClientState) : HandlerOutcome :=
  let r := runOp (.trendingSubreddits 25) env st
  let text :=
    match r.result with
    | .error e => create_error_response "Failed to get trending subreddits" (pyErrMessage e)
    | .ok result =>
      if result.success = false then
        create_error_response "Failed to get trending subreddits" (errorOrUnknown result.error)
      else
        match validate_api_response result "trending subreddits" with
        | .error msg => create_error_response "Failed to get trending subreddits" msg
        | .ok subreddits =>
          if subreddits.isEmpty then
            create_success_response "No trending subreddits found" ""
          else
            let formatted := format_data_list subreddits format_reddit_subreddit 15 "subreddits"
            let summary := create_summary_with_rate_limit
              ("🔥 **Found " ++ toString subreddits.length ++ " trending subreddits**")
              (subreddits.length : Int) "subreddits" result.rate_limit_remaining
            create_success_response "Successfully retrieved trending subreddits"
              (summary ++ "\n\n" ++ formatted)
  { text := text
    state := r.state
    file := r.file
    tokenRequests := r.tokenRequests
    dataRequests := r.dataRequests }

/-- Embedded `handle_get_cross_posts` (main.py 398-430). -/
def handle_get_cross_posts (arguments : List (String × Json)) (env : RequestEnv)
    (st : ClientState) : HandlerOutcome :=
  let post_id := argGetD arguments "post_id" (Json.str "")
  if post_id.truthy = false then
    rejectedOutcome (create_error_response "Post ID is required" "") env st
  else
    let r := runOp (.crossPosts (pyStr post_id)) env st
    let text :=
      match r.result with
      | .error e => create_error_response "Failed to get cross posts" (pyErrMessage e)
      | .ok result =>
        if result.success = false then
          create_error_response "Failed to get cross posts" (errorOrUnknown result.error)
        else
          match validate_api_response result "cross posts" with
          | .error msg => create_error_response "Failed to get cross posts" msg
          | .ok posts =>
            if posts.isEmpty then
              create_success_response ("No cross posts found for post " ++ pyStr post_id) ""
            else
              let formatted := format_data_list posts format_reddit_post 10 "cross posts"
              let summary := create_summary_with_rate_limit
                ("🔄 **Found " ++ toString posts.length ++ " cross posts** for post " ++
                  pyStr post_id)
                (posts.length : Int) "cross posts" result.rate_limit_remaining
              create_success_response
                ("Successfully retrieved cross posts for post " ++ pyStr post_id)
                (summary ++ "\n\n" ++ formatted)
    { text := text
      state := r.state
      file := r.file
      tokenRequests := r.tokenRequests
      dataRequests := r.dataRequests }

/-!
Concrete fixtures used by witness and counterexample theorems.
-/

/-- A client state holding a valid cached token. -/
def warmState : ClientState :=
  { access_token := Json.str "cached-token"
    token_expiry := 1000
    refresh_token := Json.null
    rate_limit_remaining := 60
    rate_limit_reset := 0 }

/-- A 200 listing payload whose `children` list is empty. -/
def emptyListing : Json :=
  Json.obj [("kind", Json.str "Listing"),
    ("data", Json.obj [("children", Json.arr []), ("after", Json.null)])]

/-- An `ensure_valid_token` environment at time 500 with an unreachable token
endpoint and no token file. -/
def coldEnsureEnv : EnsureEnv :=
  { file := FileContent.missing
    now := 500
    acq := { attempt := HttpAttempt.transportFailure "connection refused", now := 500 } }

/-- Request environment whose data endpoint returns 200 with the empty listing
and well-formed rate-limit headers. -/
def emptyListingEnv : RequestEnv :=
  { ensure := coldEnsureEnv
    data := HttpAttempt.response 200
      [("X-Ratelimit-Remaining", "59"), ("X-Ratelimit-Reset", "100")]
      (Except.ok emptyListing) "" }

/-- A client state caching an empty-string access token: not `None`, but falsy
for Python truthiness. -/
def emptyTokenState : ClientState :=
  { access_token := Json.str ""
    token_expiry := 1000
    refresh_token := Json.null
    rate_limit_remaining := 60
    rate_limit_reset := 0 }

/-- A token endpoint returning HTTP 401. -/
def deniedAcqEnv : AcqEnv :=
  { attempt := HttpAttempt.response 401 [] (Except.error "not json") "Unauthorized", now := 0 }

/-- A 200 token response carrying `access_token` and `expires_in = 3600`. -/
def tokenGrantBody : Json :=
  Json.obj [("access_token", Json.str "fresh-token"), ("token_type", Json.str "bearer"),
    ("expires_in", Json.num 3600), ("scope", Json.str "read")]

/-- Acquisition environment delivering `tokenGrantBody` with status 200 at
time 700. -/
def grantAcqEnv : AcqEnv :=
  { attempt := HttpAttempt.response 200 [] (Except.ok tokenGrantBody) "", now := 700 }

/-- Token file whose `expires_at` value is not a parsable timestamp. -/
def badExpiryFile : FileContent :=
  FileContent.json (Json.obj
    [("access_token", Json.str "tok"), ("expires_at", Json.str "not-a-date")])

/-- Token file holding a JSON array instead of an object. -/
def arrayFile : FileContent := FileContent.json (Json.arr [])

/-- Request environment with no token file and an unreachable token endpoint;
the data endpoint is never consulted. -/
def coldRequestEnv : RequestEnv :=
  { ensure := coldEnsureEnv
    data := HttpAttempt.transportFailure "unused" }

/-- The token request failed: the transport raised, or the token endpoint
answered with a status other than 200. -/
def acqFailed (env : AcqEnv) : Prop :=
  match env.attempt with
  | .transportFailure _ => True
  | .response status _ _ _ => status ≠ 200

theorem charDigit_digitChar {d : Nat} (h : d < 10) : charDigit (digitChar d) = some d := by
  interval_cases d <;> decide

theorem charsDigits_map_digitChar (l : List Nat) (h : ∀ d ∈ l, d < 10) :
    charsDigits (l.map digitChar) = some l := by
  induction l with
  | nil => rfl
  | cons d ds ih =>
    have hd : d < 10 := h d (List.mem_cons_self d ds)
    have hds := ih (fun x hx => h x (List.mem_cons_of_mem d hx))
    simp [charsDigits, charDigit_digitChar hd, hds]

theorem charsDigits_natChars (n : Nat) : charsDigits (natChars n) = some (Nat.digits 10 n) :=
  charsDigits_map_digitChar _ (fun _ hd => Nat.digits_lt_base (by norm_num) hd)

theorem fromisoChars_cons (c1 c2 : Char) (cs : List Char) :
    fromisoChars (c1 :: c2 :: cs) =
      if c1 = 'D' ∧ c2 = '-' then
        (charsDigits cs).map (fun ds => -((Nat.ofDigits 10 ds : Nat) : Int))
      else if c1 = 'D' ∧ c2 = '+' then
        (charsDigits cs).map (fun ds => ((Nat.ofDigits 10 ds : Nat) : Int))
      else none := rfl

theorem fromisoStr_isoformat (d : Int) : fromisoStr (isoformat d) = some d := by
  by_cases hneg : d < 0
  · have hdata : (isoformat d).data = 'D' :: '-' :: natChars d.natAbs := by
      simp [isoformat, if_pos hneg]
    unfold fromisoStr
    rw [hdata, fromisoChars_cons, if_pos ⟨rfl, rfl⟩, charsDigits_natChars, Option.map_some',
      Nat.ofDigits_digits]
    congr 1
    omega
  · have hdata : (isoformat d).data = 'D' :: '+' :: natChars d.toNat := by
      simp [isoformat, if_neg hneg]
    unfold fromisoStr
    rw [hdata, fromisoChars_cons, if_neg (by simp), if_pos ⟨rfl, rfl⟩, charsDigits_natChars,
      Option.map_some', Nat.ofDigits_digits]
    congr 1
    omega

theorem isoformat_ne_empty (d : Int) : isoformat d ≠ "" := by
  intro h
  have hdata := congrArg String.data h
  unfold isoformat at hdata
  by_cases hneg : d < 0
  · rw [if_pos hneg] at hdata
    exact List.noConfusion hdata
  · rw [if_neg hneg] at hdata
    exact List.noConfusion hdata

theorem fromisoformat_isoformat (d : Int) :
    fromisoformat (Json.str (isoformat d)) = Except.ok d := by
  show (match fromisoStr (isoformat d) with
    | some x => Except.ok x
    | none => Except.error PyErr.valueErr) = Except.ok d
  rw [fromisoStr_isoformat]

/-!
Helper lemmas shared by the claim theorems.
-/

/-- A failed token request leaves the call's inputs untouched and reports
`False`. -/
theorem gcct_fail (env : AcqEnv) (st : ClientState) (file : FileContent)
    (h : acqFailed env) :
    get_client_credentials_token env st file = (false, st, file) := by
  unfold get_client_credentials_token
  unfold acqFailed at h
  match henv : env.attempt with
  | .transportFailure msg => rfl
  | .response status headers body text =>
    rw [henv] at h
    simp only [if_neg h]

/-- With a truthy cached token whose expiry is still in the future,
`ensure_valid_token` does nothing and reports `True`. -/
theorem ensure_warm (env : EnsureEnv) (st : ClientState)
    (htok : st.access_token.truthy = true) (hexp : env.now < st.token_expiry) :
    ensure_valid_token env st =
      { state := st, file := env.file, result := .ok true, tokenRequests := 0 } := by
  unfold ensure_valid_token loadPhase
  rw [htok]
  simp only [if_true]
  rw [if_neg]
  push_neg
  exact ⟨by rw [htok]; simp, by omega⟩

/-- With a warm token, `make_request` issues no token request and exactly one
bearer GET carrying the cached token, and leaves the cached token unchanged. -/
theorem make_request_warm_trace (ep : String) (ps : List (String × Json)) (env : RequestEnv)
    (st : ClientState) (htok : st.access_token.truthy = true)
    (hexp : env.ensure.now < st.token_expiry) :
    (make_request ep ps env st).tokenRequests = 0 ∧
    (make_request ep ps env st).dataRequests =
      [{ endpoint := ep, params := ps, bearer := st.access_token }] ∧
    (make_request ep ps env st).state.access_token = st.access_token := by
  unfold make_request
  rw [ensure_warm env.ensure st htok hexp]
  cases hd : env.data with
  | transportFailure msg => exact ⟨rfl, rfl, rfl⟩
  | response status headers body text =>
    cases h1 : rateLimitHeaderValue headers "X-Ratelimit-Remaining" "60" 60 with
    | error e1 => simp [h1]
    | ok rem =>
      cases h2 : rateLimitHeaderValue headers "X-Ratelimit-Reset" "0" 0 with
      | error e2 => simp [h1, h2]
      | ok rst =>
        by_cases hs : status = 200
        · cases body with
          | ok j => simp [h1, h2, hs]
          | error msg => simp [h1, h2, hs]
        · simp [h1, h2, hs]

/-!
Claim theorems.
-/

/-- C9: whenever the token request returns a non-200 status or raises a
transport error, `get_client_credentials_token` returns `False`, leaves the
in-memory token state exactly as it was, and writes nothing to the token
storage file. -/
theorem c9_failed_acquisition_is_atomic (env : AcqEnv) (st : ClientState)
    (file : FileContent) (h : acqFailed env) :
    get_client_credentials_token env st file = (false, st, file) :=
  gcct_fail env st file h

/-- Witness for C9 at the concrete 401 token endpoint. -/
theorem c9_failed_acquisition_is_atomic_witness :
    acqFailed deniedAcqEnv ∧
    get_client_credentials_token deniedAcqEnv freshClientState FileContent.missing =
      (false, freshClientState, FileContent.missing) := by
  refine ⟨?_, c9_failed_acquisition_is_atomic deniedAcqEnv freshClientState
    FileContent.missing ?_⟩ <;> · show (401 : Int) ≠ 200; decide

/-- C10: `create_summary_with_rate_limit` treats a remaining count of `0`
exactly like an absent one; the rate-limit line is omitted, so a caller is
never shown a remaining count of zero. -/
theorem c10_zero_remaining_omitted (message : String) (count : Int) (item_type : String) :
    create_summary_with_rate_limit message count item_type (some 0) =
      create_summary_with_rate_limit message count item_type none ∧
    create_summary_with_rate_limit message count item_type none =
      message ++ " **" ++ toString count ++ " " ++ item_type ++ "**" := by
  constructor <;> simp [create_summary_with_rate_limit]

/-- C2 as stated is false: a cached empty-string access token is not `None`,
and the current time (500) is strictly before the stored expiry (1000), yet the
client issues a token request, because `ensure_valid_token` tests Python
truthiness (`if not self.access_token`), not `is not None`. -/
theorem c2_counterexample_empty_token :
    emptyTokenState.access_token ≠ Json.null ∧
    (500 : Int) < emptyTokenState.token_expiry ∧
    (make_request "/r/python/hot.json" []
      { ensure := coldEnsureEnv, data := HttpAttempt.transportFailure "unused" }
      emptyTokenState).tokenRequests = 1 := by
  refine ⟨fun h => Json.noConfusion h, by decide, rfl⟩

/-- C2 amended ("non-None" strengthened to "truthy, i.e. non-None and
non-empty"): a 200 token response with `expires_in = 3600` sets the stored
expiry to the acquisition time plus 3600 seconds and caches the returned
token; and every data call made while a truthy token is cached and the current
time is strictly before the stored expiry reuses that token for its single
bearer GET and performs no token request. -/
theorem c2_expiry_and_token_reuse :
    (∀ (env : AcqEnv) (st : ClientState) (file : FileContent)
      (headers : List (String × String)) (body : Json) (text : String) (tok : Json),
      env.attempt = HttpAttempt.response 200 headers (Except.ok body) text →
      body.dictGet "access_token" = Except.ok tok →
      body.dictGetD "expires_in" (Json.num 3600) = Except.ok (Json.num 3600) →
      (get_client_credentials_token env st file).1 = true ∧
      (get_client_credentials_token env st file).2.1.access_token = tok ∧
      (get_client_credentials_token env st file).2.1.token_expiry = env.now + 3600) ∧
    (∀ (ep : String) (ps : List (String × Json)) (env : RequestEnv) (st : ClientState),
      st.access_token.truthy = true → env.ensure.now < st.token_expiry →
      (make_request ep ps env st).tokenRequests = 0 ∧
      (make_request ep ps env st).dataRequests =
        [{ endpoint := ep, params := ps, bearer := st.access_token }] ∧
      (make_request ep ps env st).state.access_token = st.access_token) := by
  constructor
  · intro env st file headers body text tok hresp htok hexp
    unfold get_client_credentials_token
    rw [hresp]
    simp only [if_pos rfl]
    rw [htok, hexp]
    exact ⟨rfl, rfl, rfl⟩
  · intro ep ps env st htok hexp
    exact make_request_warm_trace ep ps env st htok hexp

/-- Witness for C2: the concrete token grant caches the fresh token with expiry
700 + 3600, and a warm-token request at time 500 with expiry 1000 reuses the
cached token without a token request. -/
theorem c2_expiry_and_token_reuse_witness :
    ((get_client_credentials_token grantAcqEnv freshClientState FileContent.missing).1 = true ∧
     (get_client_credentials_token grantAcqEnv freshClientState
        FileContent.missing).2.1.access_token = Json.str "fresh-token" ∧
     (get_client_credentials_token grantAcqEnv freshClientState
        FileContent.missing).2.1.token_expiry = 700 + 3600) ∧
    ((make_request "/api/info.json" [] emptyListingEnv warmState).tokenRequests = 0 ∧
     (make_request "/api/info.json" [] emptyListingEnv warmState).dataRequests =
       [{ endpoint := "/api/info.json", params := [], bearer := Json.str "cached-token" }] ∧
     (make_request "/api/info.json" [] emptyListingEnv
        warmState).state.access_token = Json.str "cached-token") :=
  ⟨c2_expiry_and_token_reuse.1 grantAcqEnv freshClientState FileContent.missing []
      tokenGrantBody "" (Json.str "fresh-token") rfl rfl rfl,
   c2_expiry_and_token_reuse.2 "/api/info.json" [] emptyListingEnv warmState rfl (by decide)⟩

/-- C8: with default optional arguments and a warm token, listing subreddit
posts issues exactly one GET for `/r/{sub}/{sort}.json` with `limit=25` and
`t=all`, and crosspost lookup issues exactly one GET for `/api/info.json` with
`id` equal to the post id prefixed by `t3_`. -/
theorem c8_default_endpoint_shapes (sub sort post_id : String) (env : RequestEnv)
    (st : ClientState) (htok : st.access_token.truthy = true)
    (hexp : env.ensure.now < st.token_expiry) :
    (runOp (OpCall.subredditPosts sub sort 25 "all") env st).dataRequests =
      [{ endpoint := "/r/" ++ sub ++ "/" ++ sort ++ ".json"
         params := [("limit", Json.num 25), ("t", Json.str "all")]
         bearer := st.access_token }] ∧
    (runOp (OpCall.crossPosts post_id) env st).dataRequests =
      [{ endpoint := "/api/info.json"
         params := [("id", Json.str ("t3_" ++ post_id))]
         bearer := st.access_token }] :=
  ⟨(make_request_warm_trace _ _ env st htok hexp).2.1,
   (make_request_warm_trace _ _ env st htok hexp).2.1⟩

/-- Witness for C8 at concrete inputs. -/
theorem c8_default_endpoint_shapes_witness :
    (runOp (OpCall.subredditPosts "python" "hot" 25 "all") emptyListingEnv
        warmState).dataRequests =
      [{ endpoint := "/r/python/hot.json"
         params := [("limit", Json.num 25), ("t", Json.str "all")]
         bearer := Json.str "cached-token" }] ∧
    (runOp (OpCall.crossPosts "1n1nlse") emptyListingEnv warmState).dataRequests =
      [{ endpoint := "/api/info.json"
         params := [("id", Json.str "t3_1n1nlse")]
         bearer := Json.str "cached-token" }] :=
  c8_default_endpoint_shapes "python" "hot" "1n1nlse" emptyListingEnv warmState rfl (by decide)

/-- C6 fails on the code: `load_tokens_from_storage` treats a missing file and
unparsable JSON text as "start fresh", but a parsable file whose `expires_at`
is not a valid timestamp raises `ValueError`, and a file holding a JSON array
raises `AttributeError`; neither class is in the `except` tuple, so the
exception propagates to the caller. -/
theorem c6_malformed_file_escapes_load :
    (load_tokens_from_storage badExpiryFile freshClientState).2 = some PyErr.valueErr ∧
    (load_tokens_from_storage arrayFile freshClientState).2 = some PyErr.attributeErr ∧
    (load_tokens_from_storage FileContent.missing freshClientState).2 = none ∧
    (load_tokens_from_storage FileContent.invalidJson freshClientState).2 = none :=
  ⟨rfl, rfl, rfl, rfl⟩

/-- C1 fails on the code: on a successful HTTP 200 whose listing payload has an
empty `children` list, `validate_api_response` raises
`Exception("No posts found")`, which the handler's `except` renders as an error
response; the handler's zero-item success branch is unreachable. The single
issued GET shows the HTTP call itself happened and succeeded. -/
theorem c1_empty_listing_renders_error :
    (handle_get_subreddit_posts [("subreddit", Json.str "python")] emptyListingEnv
        warmState).text =
      create_error_response "Failed to get subreddit posts" "No posts found" ∧
    (handle_get_subreddit_posts [("subreddit", Json.str "python")] emptyListingEnv
        warmState).dataRequests.length = 1 :=
  ⟨rfl, rfl⟩

/-- When the load phase raises nothing, the token is then absent or stale, and
the token endpoint fails, `ensure_valid_token` makes exactly one failed
acquisition and reports `False`. -/
theorem ensure_trigger_fail (env : EnsureEnv) (st : ClientState)
    (hload : (loadPhase env st).2 = none)
    (htrig : (loadPhase env st).1.access_token.truthy = false ∨
      (loadPhase env st).1.token_expiry ≤ env.now)
    (hfail : acqFailed env.acq) :
    ensure_valid_token env st =
      { state := (loadPhase env st).1
        file := env.file
        result := .ok false
        tokenRequests := 1 } := by
  unfold ensure_valid_token
  rcases hlp : loadPhase env st with ⟨st1, err⟩
  rw [hlp] at hload htrig
  simp only at hload htrig
  subst hload
  show (if st1.access_token.truthy = false ∨ st1.token_expiry ≤ env.now then
      match get_client_credentials_token env.acq st1 env.file with
      | (ok, st2, file2) =>
        ({ state := st2, file := file2, result := Except.ok ok,
           tokenRequests := 1 } : EnsureOutcome)
    else ({ state := st1, file := env.file, result := Except.ok true,
            tokenRequests := 0 } : EnsureOutcome)) =
    ({ state := st1, file := env.file, result := Except.ok false,
       tokenRequests := 1 } : EnsureOutcome)
  rw [if_pos htrig, gcct_fail env.acq st1 env.file hfail]

/-- C3: for every data operation, when token acquisition is triggered (no
usable cached or loaded token) and the token request fails, the operation's
result is a failure carrying the no-valid-token message and no
bearer-authenticated GET is attempted. -/
theorem c3_failed_acquisition_fails_call (op : OpCall) (env : RequestEnv) (st : ClientState)
    (hload : (loadPhase env.ensure st).2 = none)
    (htrig : (loadPhase env.ensure st).1.access_token.truthy = false ∨
      (loadPhase env.ensure st).1.token_expiry ≤ env.ensure.now)
    (hfail : acqFailed env.ensure.acq) :
    (runOp op env st).result =
      .ok { success := false, error := some "Failed to get valid access token" } ∧
    (runOp op env st).dataRequests = [] := by
  have key : ∀ (ep : String) (ps : List (String × Json)),
      (make_request ep ps env st).result =
        .ok { success := false, error := some "Failed to get valid access token" } ∧
      (make_request ep ps env st).dataRequests = [] := by
    intro ep ps
    unfold make_request
    rw [ensure_trigger_fail env.ensure st hload htrig hfail]
    exact ⟨rfl, rfl⟩
  cases op <;> exact key _ _

/-- Witness for C3: a fresh client with no token file and an unreachable token
endpoint fails the user-profile call without a GET. -/
theorem c3_failed_acquisition_fails_call_witness :
    (runOp (OpCall.userProfile "spez") coldRequestEnv freshClientState).result =
      .ok { success := false, error := some "Failed to get valid access token" } ∧
    (runOp (OpCall.userProfile "spez") coldRequestEnv freshClientState).dataRequests = [] :=
  c3_failed_acquisition_fails_call (OpCall.userProfile "spez") coldRequestEnv freshClientState
    rfl (Or.inl rfl) trivial

/-- C4: each handler with a required string argument rejects an empty or
missing value with an error response and zero network requests; the trending
operation has no required string argument, so the claim is vacuous there. The
final conjunct makes explicit that the rejection outcome carries no token
request and no data request. -/
theorem c4_empty_required_argument_rejected (args : List (String × Json)) (env : RequestEnv)
    (st : ClientState) :
    ((argGetD args "subreddit" (Json.str "")).truthy = false →
      handle_get_subreddit_posts args env st =
        rejectedOutcome (create_error_response "Subreddit name is required" "") env st) ∧
    ((argGetD args "query" (Json.str "")).truthy = false →
      handle_search_reddit args env st =
        rejectedOutcome (create_error_response "Search query is required" "") env st) ∧
    ((argGetD args "username" (Json.str "")).truthy = false →
      handle_get_user_profile args env st =
        rejectedOutcome (create_error_response "Username is required" "") env st) ∧
    ((argGetD args "subreddit" (Json.str "")).truthy = false →
      handle_get_subreddit_info args env st =
        rejectedOutcome (create_error_response "Subreddit name is required" "") env st) ∧
    ((argGetD args "post_id" (Json.str "")).truthy = false →
      handle_get_post_comments args env st =
        rejectedOutcome (create_error_response "Post ID is required" "") env st) ∧
    ((argGetD args "post_id" (Json.str "")).truthy = false →
      handle_get_cross_posts args env st =
        rejectedOutcome (create_error_response "Post ID is required" "") env st) ∧
    (∀ (t : String), (rejectedOutcome t env st).tokenRequests = 0 ∧
      (rejectedOutcome t env st).dataRequests = []) := by
  refine ⟨?_, ?_, ?_, ?_, ?_, ?_, fun t => ⟨rfl, rfl⟩⟩ <;> intro h
  · unfold handle_get_subreddit_posts
    rw [if_pos h]
  · unfold handle_search_reddit
    rw [if_pos h]
  · unfold handle_get_user_profile
    rw [if_pos h]
  · unfold handle_get_subreddit_info
    rw [if_pos h]
  · unfold handle_get_post_comments
    rw [if_pos h]
  · unfold handle_get_cross_posts
    rw [if_pos h]

/-- Witness for C4 at the empty arguments dict. -/
theorem c4_empty_required_argument_rejected_witness :
    handle_get_subreddit_posts [] coldRequestEnv freshClientState =
      rejectedOutcome (create_error_response "Subreddit name is required" "")
        coldRequestEnv freshClientState ∧
    handle_search_reddit [] coldRequestEnv freshClientState =
      rejectedOutcome (create_error_response "Search query is required" "")
        coldRequestEnv freshClientState ∧
    handle_get_user_profile [] coldRequestEnv freshClientState =
      rejectedOutcome (create_error_response "Username is required" "")
        coldRequestEnv freshClientState ∧
    handle_get_subreddit_info [] coldRequestEnv freshClientState =
      rejectedOutcome (create_error_response "Subreddit name is required" "")
        coldRequestEnv freshClientState ∧
    handle_get_post_comments [] coldRequestEnv freshClientState =
      rejectedOutcome (create_error_response "Post ID is required" "")
        coldRequestEnv freshClientState ∧
    handle_get_cross_posts [] coldRequestEnv freshClientState =
      rejectedOutcome (create_error_response "Post ID is required" "")
        coldRequestEnv freshClientState := by
  have h := c4_empty_required_argument_rejected [] coldRequestEnv freshClientState
  exact ⟨h.1 rfl, h.2.1 rfl, h.2.2.1 rfl, h.2.2.2.1 rfl, h.2.2.2.2.1 rfl, h.2.2.2.2.2.1 rfl⟩

/-- Loading a file saved by `save_tokens_to_storage` reproduces the saved
fields exactly and raises nothing. -/
theorem load_saved (a r : Json) (e saveNow : Int) (st0 : ClientState) :
    load_tokens_from_storage
      (FileContent.json (Json.obj
        [("access_token", a), ("refresh_token", r),
         ("expires_at", Json.str (isoformat e)),
         ("saved_at", Json.str (isoformat saveNow))]))
      st0 =
      ({ st0 with access_token := a, refresh_token := r, token_expiry := e }, none) := by
  have htruthy : (Json.str (isoformat e)).truthy = true := by
    have hne := isoformat_ne_empty e
    simp [Json.truthy, hne]
  unfold load_tokens_from_storage
  show (match (if (Json.str (isoformat e)).truthy then
        match fromisoformat (Json.str (isoformat e)) with
        | .error er =>
          (({ st0 with access_token := a, refresh_token := r } : ClientState), some er)
        | .ok d =>
          (({ st0 with access_token := a, refresh_token := r, token_expiry := d }
            : ClientState), none)
      else (({ st0 with access_token := a, refresh_token := r } : ClientState), none)) with
    | (st1, some er) => if caughtByLoad er then (st1, none) else (st1, some er)
    | (st1, none) => (st1, none)) =
    (({ st0 with access_token := a, refresh_token := r, token_expiry := e }
      : ClientState), none)
  rw [htruthy, if_pos rfl, fromisoformat_isoformat e]

/-- C5: saving a held token record and loading it into a fresh client instance
reproduces the access token, refresh token and expiry exactly (raising
nothing), and an ensure-valid-token check on the reloaded state made strictly
before the expiry performs no token acquisition. -/
theorem c5_persistence_roundtrip (st : ClientState) (saveNow : Int) (file : FileContent)
    (env : EnsureEnv) (htok : st.access_token.truthy = true)
    (hnow : env.now < st.token_expiry) :
    (load_tokens_from_storage (save_tokens_to_storage st saveNow file)
        freshClientState).2 = none ∧
    (load_tokens_from_storage (save_tokens_to_storage st saveNow file)
        freshClientState).1.access_token = st.access_token ∧
    (load_tokens_from_storage (save_tokens_to_storage st saveNow file)
        freshClientState).1.refresh_token = st.refresh_token ∧
    (load_tokens_from_storage (save_tokens_to_storage st saveNow file)
        freshClientState).1.token_expiry = st.token_expiry ∧
    (ensure_valid_token env (load_tokens_from_storage
        (save_tokens_to_storage st saveNow file) freshClientState).1).tokenRequests = 0 ∧
    (ensure_valid_token env (load_tokens_from_storage
        (save_tokens_to_storage st saveNow file) freshClientState).1).result =
      Except.ok true := by
  have hsave : save_tokens_to_storage st saveNow file = FileContent.json (Json.obj
      [("access_token", st.access_token), ("refresh_token", st.refresh_token),
       ("expires_at", Json.str (isoformat st.token_expiry)),
       ("saved_at", Json.str (isoformat saveNow))]) := by
    unfold save_tokens_to_storage
    rw [htok]
    simp
  rw [hsave, load_saved]
  have he := ensure_warm env
    (ClientState.mk st.access_token st.token_expiry st.refresh_token
      freshClientState.rate_limit_remaining freshClientState.rate_limit_reset) htok hnow
  refine ⟨rfl, rfl, rfl, rfl, ?_, ?_⟩ <;> simp [he]

/-- Witness for C5: the warm state round-trips through the token file and the
reloaded client passes the time-500 validity check without acquisition. -/
theorem c5_persistence_roundtrip_witness :
    (load_tokens_from_storage (save_tokens_to_storage warmState 0 FileContent.missing)
        freshClientState).2 = none ∧
    (load_tokens_from_storage (save_tokens_to_storage warmState 0 FileContent.missing)
        freshClientState).1.access_token = warmState.access_token ∧
    (load_tokens_from_storage (save_tokens_to_storage warmState 0 FileContent.missing)
        freshClientState).1.refresh_token = warmState.refresh_token ∧
    (load_tokens_from_storage (save_tokens_to_storage warmState 0 FileContent.missing)
        freshClientState).1.token_expiry = warmState.token_expiry ∧
    (ensure_valid_token coldEnsureEnv (load_tokens_from_storage
        (save_tokens_to_storage warmState 0 FileContent.missing)
        freshClientState).1).tokenRequests = 0 ∧
    (ensure_valid_token coldEnsureEnv (load_tokens_from_storage
        (save_tokens_to_storage warmState 0 FileContent.missing)
        freshClientState).1).result = Except.ok true :=
  c5_persistence_roundtrip warmState 0 FileContent.missing coldEnsureEnv rfl (by decide)

/-- Sanity of the `int(float(.))` model on representative header values,
matching CPython: exponent and underscore forms parse, `inf`/`Infinity` raise
`OverflowError` at `int()`, `nan` and unparsable text raise `ValueError`, and
a decimal literal beyond the double range overflows. -/
theorem pyIntFloat_samples :
    pyIntFloat "60" = Except.ok 60 ∧
    pyIntFloat "599.0" = Except.ok 599 ∧
    pyIntFloat "1e3" = Except.ok 1000 ∧
    pyIntFloat "1_0.5" = Except.ok 10 ∧
    pyIntFloat "-2.7" = Except.ok (-2) ∧
    pyIntFloat " 60 " = Except.ok 60 ∧
    pyIntFloat "inf" = Except.error PyErr.overflowErr ∧
    pyIntFloat "-Infinity" = Except.error PyErr.overflowErr ∧
    pyIntFloat "1e400" = Except.error PyErr.overflowErr ∧
    pyIntFloat "nan" = Except.error PyErr.valueErr ∧
    pyIntFloat "abc" = Except.error PyErr.valueErr ∧
    pyIntFloat "" = Except.error PyErr.valueErr :=
  ⟨rfl, rfl, rfl, rfl, rfl, rfl, rfl, rfl, rfl, rfl, rfl, rfl⟩

end RedditMCP
